import Mathlib

/-!
Verification of the external-API aggregation/projection layer of the
wealthfolio repository (`src-core/src/external_api.rs`), shallowly embedded
in Lean 4.

Modelling conventions:
* `serde_json::Value` is the inductive `Json`; a `json!({...})` object
  literal becomes `Json.obj` over the key/value list in source order.
* Rust `Result<T>` (with the crate error type) is `Except Err T`, where
  `Err` wraps the human-readable message produced by `Display`
  (`to_string`).
* `rust_decimal::Decimal` amounts are modelled as `Int`: the projection
  layer only copies numeric values through, never computes with them.
* Timestamps (`DateTime<Utc>`) are carried by their RFC-3339 rendering and
  `NaiveDate` by its `to_string` rendering, since that is all the
  projection layer ever extracts from them.
* The provider traits (`SettingsServiceTrait`, `AccountServiceTrait`,
  `HoldingsServiceTrait`, ...) become structures of pure `Except`-valued
  functions; the `eprintln!` log of a skipped per-account failure has no
  data effect and is dropped by the pure embedding.
-/

/-- Shallow model of `serde_json::Value`.  Objects keep their fields as an
ordered association list in the insertion order of the `json!` literal. -/
inductive Json where
  | null : Json
  | bool (b : Bool) : Json
  | num (n : Int) : Json
  | str (s : String) : Json
  | arr (elems : List Json) : Json
  | obj (fields : List (String × Json)) : Json

/-- Field lookup on a JSON object; `none` on non-objects or missing keys. -/
def Json.lookup (j : Json) (key : String) : Option Json :=
  match j with
  | .obj fields => fields.lookup key
  | _ => none

/-- The key list of a JSON object (empty for non-objects). -/
def Json.keys (j : Json) : List String :=
  match j with
  | .obj fields => fields.map Prod.fst
  | _ => []

mutual

/-- Canonical textual serialization of a `Json` value (the byte string a
serializer would emit; string escaping is irrelevant for the values the
API produces and is omitted). -/
def Json.render : Json → String
  | .null => "null"
  | .bool b => if b then "true" else "false"
  | .num n => toString n
  | .str s => "\"" ++ s ++ "\""
  | .arr elems => "[" ++ Json.renderList elems ++ "]"
  | .obj fields => "\x7b" ++ Json.renderFields fields ++ "\x7d"

/-- Comma-separated serialization of a JSON array's elements. -/
def Json.renderList : List Json → String
  | [] => ""
  | [j] => Json.render j
  | j :: rest => Json.render j ++ "," ++ Json.renderList rest

/-- Comma-separated serialization of a JSON object's fields. -/
def Json.renderFields : List (String × Json) → String
  | [] => ""
  | [(k, v)] => "\"" ++ k ++ "\":" ++ Json.render v
  | (k, v) :: rest => "\"" ++ k ++ "\":" ++ Json.render v ++ "," ++ Json.renderFields rest

end

/-- An `Option<Value>` embedded in a `json!` literal: `None` serializes to
`null`, `Some(v)` to `v`. -/
def Json.ofOption (o : Option Json) : Json :=
  match o with
  | some v => v
  | none => Json.null

/-- An optional number embedded in a `json!` literal. -/
def Json.ofOptNum (o : Option Int) : Json :=
  match o with
  | some n => Json.num n
  | none => Json.null

/-- An optional string embedded in a `json!` literal. -/
def Json.ofOptStr (o : Option String) : Json :=
  match o with
  | some s => Json.str s
  | none => Json.null

/-- Monetary amounts (`rust_decimal::Decimal`) as exact integers. -/
abbrev Decimal := Int

/-- The crate error type, reduced to its `Display` rendering. -/
structure Err where
  msg : String
deriving DecidableEq

/-- `error.to_string()`: the `Display` rendering of an error. -/
def Err.to_string (e : Err) : String := e.msg

/-- Rust `Result<T>` with the crate error type. -/
abbrev Res (α : Type) := Except Err α

/-- A `DateTime<Utc>` value, carried by its RFC-3339 rendering. -/
structure DateTime where
  rfc3339 : String
deriving DecidableEq

/-- `dt.to_rfc3339()`. -/
def DateTime.to_rfc3339 (dt : DateTime) : String := dt.rfc3339

/-- A `NaiveDate` value, carried by its `to_string` rendering. -/
structure NaiveDate where
  rendered : String
deriving DecidableEq

/-- `d.to_string()`. -/
def NaiveDate.to_string (d : NaiveDate) : String := d.rendered

/-- A two-sided monetary amount: local-currency and base-currency values. -/
structure MonetaryValue where
  «local» : Decimal
  base : Decimal
deriving DecidableEq

/-- `accounts::Account`. -/
structure Account where
  id : String
  name : String
  account_type : String
  currency : String
  is_active : Bool
deriving DecidableEq

/-- The instrument embedded in a holding. -/
structure Instrument where
  id : String
  symbol : String
  name : String
  currency : String
  asset_class : String
  asset_subclass : String
  countries : List String
  sectors : List String
deriving DecidableEq

/-- `portfolio::holdings::Holding`. -/
structure Holding where
  id : String
  account_id : String
  holding_type : String
  instrument : Option Instrument
  quantity : Decimal
  open_date : Option DateTime
  local_currency : String
  base_currency : String
  fx_rate : Option Decimal
  market_value : MonetaryValue
  cost_basis : Option MonetaryValue
  price : Option Decimal
  unrealized_gain : Option MonetaryValue
  unrealized_gain_pct : Option Decimal
  realized_gain : Option MonetaryValue
  realized_gain_pct : Option Decimal
  total_gain : Option MonetaryValue
  total_gain_pct : Option Decimal
  day_change : Option MonetaryValue
  day_change_pct : Option Decimal
  weight : Decimal
  as_of_date : NaiveDate
deriving DecidableEq

/-- `fx::ExchangeRate`. -/
structure ExchangeRate where
  from_currency : String
  to_currency : String
  rate : Decimal
  timestamp : DateTime
deriving DecidableEq

/-- `market_data_model::Quote`. -/
structure Quote where
  id : String
  symbol : String
  timestamp : DateTime
  «open» : Decimal
  high : Decimal
  low : Decimal
  close : Decimal
  volume : Decimal
  currency : String
  data_source : String
deriving DecidableEq

/-- `market_data_model::QuoteSummary` (search results). -/
structure QuoteSummary where
  symbol : String
  exchange : String
  short_name : String
  quote_type : String
deriving DecidableEq

/-- `portfolio::performance::PerformanceMetrics`. -/
structure PerformanceMetrics where
  id : String
  currency : String
  period_start_date : Option NaiveDate
  period_end_date : Option NaiveDate
  cumulative_twr : Decimal
  gain_loss_amount : Option Decimal
  annualized_twr : Decimal
  simple_return : Decimal
  annualized_simple_return : Decimal
  volatility : Decimal
  max_drawdown : Decimal
deriving DecidableEq

/-- `portfolio::performance::SimplePerformanceMetrics`. -/
structure SimplePerformanceMetrics where
  account_id : String
  total_value : Decimal
  account_currency : String
  base_currency : String
  fx_rate_to_base : Decimal
  total_gain_loss_amount : Decimal
  cumulative_return_percent : Decimal
  day_gain_loss_amount : Decimal
  day_return_percent_mod_dietz : Decimal
  portfolio_weight : Decimal
deriving DecidableEq

/-- `activities::Activity`. -/
structure Activity where
  id : String
  account_id : String
  activity_type : String
  activity_date : DateTime
  asset_id : String
  quantity : Decimal
  unit_price : Decimal
  currency : String
  fee : Decimal
  amount : Decimal
deriving DecidableEq

/-- `SettingsServiceTrait`, as the outcome of its one read used here. -/
structure SettingsService where
  get_base_currency : Res (Option String)

/-- `AccountServiceTrait`, as the outcome of its one read used here. -/
structure AccountService where
  get_all_accounts : Res (List Account)

/-- `HoldingsServiceTrait`: per-account holdings for a base currency. -/
structure HoldingsService where
  get_holdings : String → String → Res (List Holding)

/-- `FxServiceTrait`. -/
structure FxService where
  get_latest_exchange_rates : Res (List ExchangeRate)

/-- `MarketDataServiceTrait`. -/
structure MarketDataService where
  search_symbol : String → Res (List QuoteSummary)
  get_latest_quote_for_symbol : String → Res Quote
  get_historical_quotes_for_symbol : String → Res (List Quote)

/-- `PerformanceServiceTrait`: the single-subject summary (item type, item
id, optional start date, optional end date) and the batched
simple-performance call over a list of account ids. -/
structure PerformanceService where
  calculate_performance_summary :
    String → String → Option String → Option String → Res PerformanceMetrics
  calculate_accounts_simple_performance :
    List String → Res (List SimplePerformanceMetrics)

/-- `ActivityServiceTrait`. -/
structure ActivityService where
  get_activities_by_account_id : String → Res (List Activity)
  get_activities : Res (List Activity)

/-- `ExternalApiService`: the aggregation service over its providers. -/
structure ExternalApiService where
  account_service : AccountService
  holdings_service : HoldingsService
  fx_service : FxService
  settings_service : SettingsService
  market_data_service : MarketDataService
  performance_service : PerformanceService
  activity_service : ActivityService

/-- The `json!` object built for one holding inside `holdings_to_json`
(the body of the `.map(|h| json!({...}))` closure), field for field in
source order. -/
def holding_to_json (h : Holding) : Json :=
  Json.obj [
    ("id", Json.str h.id),
    ("accountId", Json.str h.account_id),
    ("holdingType", Json.str h.holding_type),
    ("instrument", Json.ofOption (h.instrument.map fun inst => Json.obj [
      ("id", Json.str inst.id),
      ("symbol", Json.str inst.symbol),
      ("name", Json.str inst.name),
      ("currency", Json.str inst.currency),
      ("assetClass", Json.str inst.asset_class),
      ("assetSubclass", Json.str inst.asset_subclass),
      ("countries", Json.arr (inst.countries.map Json.str)),
      ("sectors", Json.arr (inst.sectors.map Json.str))])),
    ("quantity", Json.num h.quantity),
    ("openDate", Json.ofOptStr (h.open_date.map fun dt => dt.to_rfc3339)),
    ("localCurrency", Json.str h.local_currency),
    ("baseCurrency", Json.str h.base_currency),
    ("fxRate", Json.ofOptNum h.fx_rate),
    ("marketValue", Json.obj [
      ("local", Json.num h.market_value.«local»),
      ("base", Json.num h.market_value.base)]),
    ("costBasis", Json.ofOption (h.cost_basis.map fun cb => Json.obj [
      ("local", Json.num cb.«local»),
      ("base", Json.num cb.base)])),
    ("price", Json.ofOptNum h.price),
    ("unrealizedGain", Json.ofOption (h.unrealized_gain.map fun ug => Json.obj [
      ("local", Json.num ug.«local»),
      ("base", Json.num ug.base)])),
    ("unrealizedGainPct", Json.ofOptNum h.unrealized_gain_pct),
    ("realizedGain", Json.ofOption (h.realized_gain.map fun rg => Json.obj [
      ("local", Json.num rg.«local»),
      ("base", Json.num rg.base)])),
    ("realizedGainPct", Json.ofOptNum h.realized_gain_pct),
    ("totalGain", Json.ofOption (h.total_gain.map fun tg => Json.obj [
      ("local", Json.num tg.«local»),
      ("base", Json.num tg.base)])),
    ("totalGainPct", Json.ofOptNum h.total_gain_pct),
    ("dayChange", Json.ofOption (h.day_change.map fun dc => Json.obj [
      ("local", Json.num dc.«local»),
      ("base", Json.num dc.base)])),
    ("dayChangePct", Json.ofOptNum h.day_change_pct),
    ("weight", Json.num h.weight),
    ("asOfDate", Json.str h.as_of_date.to_string)]

/-- `holdings_to_json`: convert holdings to JSON format for external API. -/
def holdings_to_json (holdings : List Holding) : List Json :=
  holdings.map holding_to_json

/-- `accounts_to_json`: convert accounts to JSON format for external API. -/
def accounts_to_json (accounts : List Account) : List Json :=
  accounts.map fun a => Json.obj [
    ("id", Json.str a.id),
    ("name", Json.str a.name),
    ("accountType", Json.str a.account_type),
    ("currency", Json.str a.currency),
    ("isActive", Json.bool a.is_active)]

/-- `exchange_rates_to_json`: convert exchange rates to JSON format. -/
def exchange_rates_to_json (rates : List ExchangeRate) : List Json :=
  rates.map fun r => Json.obj [
    ("from", Json.str r.from_currency),
    ("to", Json.str r.to_currency),
    ("rate", Json.num r.rate),
    ("timestamp", Json.str r.timestamp.to_rfc3339)]

/-- `quote_summaries_to_json`: convert quote summaries to JSON format. -/
def quote_summaries_to_json (summaries : List QuoteSummary) : List Json :=
  summaries.map fun s => Json.obj [
    ("symbol", Json.str s.symbol),
    ("exchange", Json.str s.exchange),
    ("name", Json.str s.short_name),
    ("type", Json.str s.quote_type)]

/-- `quote_to_json`: convert one quote to JSON format. -/
def quote_to_json (quote : Quote) : Json :=
  Json.obj [
    ("id", Json.str quote.id),
    ("symbol", Json.str quote.symbol),
    ("timestamp", Json.str quote.timestamp.to_rfc3339),
    ("open", Json.num quote.«open»),
    ("high", Json.num quote.high),
    ("low", Json.num quote.low),
    ("close", Json.num quote.close),
    ("volume", Json.num quote.volume),
    ("currency", Json.str quote.currency),
    ("dataSource", Json.str quote.data_source)]

/-- `quotes_to_json`: convert quotes to JSON format. -/
def quotes_to_json (quotes : List Quote) : List Json :=
  quotes.map fun q => quote_to_json q

/-- `performance_to_json`: convert performance metrics to JSON format. -/
def performance_to_json (performance : PerformanceMetrics) : Json :=
  Json.obj [
    ("id", Json.str performance.id),
    ("currency", Json.str performance.currency),
    ("periodStartDate", Json.ofOptStr (performance.period_start_date.map fun d => d.to_string)),
    ("periodEndDate", Json.ofOptStr (performance.period_end_date.map fun d => d.to_string)),
    ("cumulativeTWR", Json.num performance.cumulative_twr),
    ("gainLossAmount", Json.ofOptNum performance.gain_loss_amount),
    ("annualizedTWR", Json.num performance.annualized_twr),
    ("simpleReturn", Json.num performance.simple_return),
    ("annualizedSimpleReturn", Json.num performance.annualized_simple_return),
    ("volatility", Json.num performance.volatility),
    ("maxDrawdown", Json.num performance.max_drawdown)]

/-- `simple_performances_to_json`: convert simple performance metrics. -/
def simple_performances_to_json (performances : List SimplePerformanceMetrics) : List Json :=
  performances.map fun p => Json.obj [
    ("accountId", Json.str p.account_id),
    ("totalValue", Json.num p.total_value),
    ("accountCurrency", Json.str p.account_currency),
    ("baseCurrency", Json.str p.base_currency),
    ("fxRateToBase", Json.num p.fx_rate_to_base),
    ("totalGainLossAmount", Json.num p.total_gain_loss_amount),
    ("cumulativeReturnPercent", Json.num p.cumulative_return_percent),
    ("dayGainLossAmount", Json.num p.day_gain_loss_amount),
    ("dayReturnPercentModDietz", Json.num p.day_return_percent_mod_dietz),
    ("portfolioWeight", Json.num p.portfolio_weight)]

/-- `activities_to_json`: convert activities to JSON format. -/
def activities_to_json (activities : List Activity) : List Json :=
  activities.map fun a => Json.obj [
    ("id", Json.str a.id),
    ("accountId", Json.str a.account_id),
    ("activityType", Json.str a.activity_type),
    ("date", Json.str a.activity_date.to_rfc3339),
    ("assetId", Json.str a.asset_id),
    ("quantity", Json.num a.quantity),
    ("price", Json.num a.unit_price),
    ("currency", Json.str a.currency),
    ("fee", Json.num a.fee),
    ("totalAmount", Json.num a.amount)]

/-- The all-accounts loop of `get_holdings`: fetch each account's holdings
sequentially, appending successes to the accumulator; a per-account failure
is logged (`eprintln!`, no data effect) and skipped. -/
def collect_all_holdings (holdings_service : HoldingsService)
    (accounts : List Account) (base_currency : String) : List Holding :=
  accounts.foldl
    (fun all_holdings account =>
      match holdings_service.get_holdings account.id base_currency with
      | Except.ok holdings => all_holdings ++ holdings
      | Except.error _ => all_holdings)
    []

/-- The final `match holdings_result` of `get_holdings`: a success renders
the holdings plus base currency, a failure becomes an `Ok` error payload. -/
def render_holdings_result (base_currency : String)
    (holdings_result : Res (List Holding)) : Res Json :=
  match holdings_result with
  | Except.ok holdings =>
    Except.ok (Json.obj [
      ("holdings", Json.arr (holdings_to_json holdings)),
      ("baseCurrency", Json.str base_currency)])
  | Except.error error =>
    Except.ok (Json.obj [("error", Json.str error.to_string)])

/-- `ExternalApiService::get_holdings`.  The `?` on the settings read and on
`get_all_accounts` propagates an `Err` out of the whole function; every
holdings-provider outcome flows into `render_holdings_result`. -/
def ExternalApiService.get_holdings (s : ExternalApiService)
    (account_id : Option String) : Res Json :=
  match s.settings_service.get_base_currency with
  | Except.error e => Except.error e
  | Except.ok none => Except.ok (Json.obj [("error", Json.str "Base currency not set")])
  | Except.ok (some base_currency) =>
    match account_id with
    | some account_id =>
      render_holdings_result base_currency
        (s.holdings_service.get_holdings account_id base_currency)
    | none =>
      match s.account_service.get_all_accounts with
      | Except.error e => Except.error e
      | Except.ok accounts =>
        render_holdings_result base_currency
          (Except.ok (collect_all_holdings s.holdings_service accounts base_currency))

/-- `ExternalApiService::get_accounts`. -/
def ExternalApiService.get_accounts (s : ExternalApiService) : Res Json :=
  match s.account_service.get_all_accounts with
  | Except.error e => Except.error e
  | Except.ok accounts =>
    Except.ok (Json.obj [("accounts", Json.arr (accounts_to_json accounts))])

/-- `ExternalApiService::get_exchange_rates`. -/
def ExternalApiService.get_exchange_rates (s : ExternalApiService) : Res Json :=
  match s.fx_service.get_latest_exchange_rates with
  | Except.error e => Except.error e
  | Except.ok rates =>
    Except.ok (Json.obj [("exchangeRates", Json.arr (exchange_rates_to_json rates))])

/-- `ExternalApiService::get_base_currency`. -/
def ExternalApiService.get_base_currency (s : ExternalApiService) : Res Json :=
  match s.settings_service.get_base_currency with
  | Except.error e => Except.error e
  | Except.ok (some currency) => Except.ok (Json.obj [("baseCurrency", Json.str currency)])
  | Except.ok none => Except.ok (Json.obj [("error", Json.str "Base currency not set")])

/-- `ExternalApiService::search_market_data`. -/
def ExternalApiService.search_market_data (s : ExternalApiService) (query : String) : Res Json :=
  match s.market_data_service.search_symbol query with
  | Except.error e => Except.error e
  | Except.ok results =>
    Except.ok (Json.obj [("results", Json.arr (quote_summaries_to_json results))])

/-- `ExternalApiService::get_quote`. -/
def ExternalApiService.get_quote (s : ExternalApiService) (symbol : String) : Res Json :=
  match s.market_data_service.get_latest_quote_for_symbol symbol with
  | Except.error e => Except.error e
  | Except.ok quote => Except.ok (Json.obj [("quote", quote_to_json quote)])

/-- `ExternalApiService::get_historical_quotes`. -/
def ExternalApiService.get_historical_quotes (s : ExternalApiService) (symbol : String) : Res Json :=
  match s.market_data_service.get_historical_quotes_for_symbol symbol with
  | Except.error e => Except.error e
  | Except.ok quotes =>
    Except.ok (Json.obj [
      ("symbol", Json.str symbol),
      ("quotes", Json.arr (quotes_to_json quotes))])

/-- `ExternalApiService::get_account_performance`: the provider is invoked
for item type `"account"` and the given id, with both the start and the end
date passed as `None`. -/
def ExternalApiService.get_account_performance (s : ExternalApiService)
    (account_id : String) : Res Json :=
  match s.performance_service.calculate_performance_summary "account" account_id none none with
  | Except.error e => Except.error e
  | Except.ok performance =>
    Except.ok (Json.obj [
      ("accountId", Json.str account_id),
      ("performance", performance_to_json performance)])

/-- `ExternalApiService::get_portfolio_performance_summary`: all accounts
are fetched, then one batched simple-performance call is made over the
collected account ids. -/
def ExternalApiService.get_portfolio_performance_summary (s : ExternalApiService) : Res Json :=
  match s.account_service.get_all_accounts with
  | Except.error e => Except.error e
  | Except.ok accounts =>
    match s.performance_service.calculate_accounts_simple_performance
        (accounts.map fun a => a.id) with
    | Except.error e => Except.error e
    | Except.ok performances =>
      Except.ok (Json.obj [
        ("performances", Json.arr (simple_performances_to_json performances))])

/-- `ExternalApiService::get_activities`. -/
def ExternalApiService.get_activities (s : ExternalApiService)
    (account_id : Option String) : Res Json :=
  let fetched :=
    match account_id with
    | some account_id => s.activity_service.get_activities_by_account_id account_id
    | none => s.activity_service.get_activities
  match fetched with
  | Except.error e => Except.error e
  | Except.ok activities =>
    Except.ok (Json.obj [("activities", Json.arr (activities_to_json activities))])

/-- `portfolio_holdings_handler`: the routing-layer wrapper that turns a
`Result`-level failure of `get_holdings` into an internal-server-error
JSON body. -/
def portfolio_holdings_handler (s : ExternalApiService) (account_id : Option String) : Json :=
  match s.get_holdings account_id with
  | Except.ok result => result
  | Except.error e =>
    Json.obj [("error", Json.str ("Internal server error: " ++ e.to_string))]

/-- `portfolio_performance_summary_handler`: the routing-layer wrapper for
`get_portfolio_performance_summary`. -/
def portfolio_performance_summary_handler (s : ExternalApiService) : Json :=
  match s.get_portfolio_performance_summary with
  | Except.ok result => result
  | Except.error e =>
    Json.obj [("error", Json.str ("Failed to get portfolio performance summary: " ++ e.to_string))]

/-! Concrete fixtures used to evaluate the embedding on closed inputs. -/

/-- A fully resolved instrument. -/
def sample_instrument : Instrument :=
  { id := "inst1", symbol := "AAPL", name := "Apple Inc.", currency := "USD",
    asset_class := "EQUITY", asset_subclass := "STOCK",
    countries := ["US"], sectors := ["Technology"] }

/-- A holding with the gain/cost pairs partly present and partly absent. -/
def sample_holding : Holding :=
  { id := "h1", account_id := "a1", holding_type := "SECURITY",
    instrument := some sample_instrument, quantity := 10,
    open_date := some { rfc3339 := "2024-01-02T00:00:00+00:00" },
    local_currency := "USD", base_currency := "USD", fx_rate := some 1,
    market_value := { «local» := 1500, base := 1500 },
    cost_basis := some { «local» := 1000, base := 1000 },
    price := some 150,
    unrealized_gain := some { «local» := 500, base := 500 },
    unrealized_gain_pct := some 50,
    realized_gain := none, realized_gain_pct := none,
    total_gain := some { «local» := 500, base := 500 }, total_gain_pct := some 50,
    day_change := none, day_change_pct := none,
    weight := 100, as_of_date := { rendered := "2024-06-30" } }

/-- First sample account; its holdings fetch succeeds in the fixtures. -/
def acct1 : Account :=
  { id := "a1", name := "Main", account_type := "SECURITIES",
    currency := "USD", is_active := true }

/-- Second sample account; its holdings fetch fails in the fixtures. -/
def acct2 : Account :=
  { id := "a2", name := "Broken", account_type := "SECURITIES",
    currency := "USD", is_active := true }

/-- A sample market quote. -/
def sample_quote : Quote :=
  { id := "q1", symbol := "AAPL",
    timestamp := { rfc3339 := "2024-06-28T20:00:00+00:00" },
    «open» := 148, high := 152, low := 147, close := 151, volume := 1000,
    currency := "USD", data_source := "YAHOO" }

/-- A sample search-result summary. -/
def sample_summary : QuoteSummary :=
  { symbol := "AAPL", exchange := "NASDAQ", short_name := "Apple Inc.",
    quote_type := "EQUITY" }

/-- Sample single-subject performance metrics. -/
def sample_metrics : PerformanceMetrics :=
  { id := "account_a1", currency := "USD",
    period_start_date := none, period_end_date := some { rendered := "2024-06-30" },
    cumulative_twr := 12, gain_loss_amount := some 500, annualized_twr := 8,
    simple_return := 10, annualized_simple_return := 7, volatility := 3,
    max_drawdown := 2 }

/-- Sample batched simple-performance metrics for one account. -/
def sample_simple_metrics : SimplePerformanceMetrics :=
  { account_id := "a1", total_value := 1500, account_currency := "USD",
    base_currency := "USD", fx_rate_to_base := 1, total_gain_loss_amount := 500,
    cumulative_return_percent := 50, day_gain_loss_amount := 5,
    day_return_percent_mod_dietz := 1, portfolio_weight := 100 }

/-- Settings with the base currency configured. -/
def fixture_settings : SettingsService :=
  { get_base_currency := Except.ok (some "USD") }

/-- Settings with the base currency unset. -/
def unset_settings : SettingsService :=
  { get_base_currency := Except.ok none }

/-- Account provider returning both sample accounts. -/
def fixture_accounts : AccountService :=
  { get_all_accounts := Except.ok [acct1, acct2] }

/-- Account provider that fails. -/
def failing_accounts : AccountService :=
  { get_all_accounts := Except.error { msg := "db down" } }

/-- Holdings provider that succeeds for `a1` and fails for every other
account. -/
def fixture_holdings : HoldingsService :=
  { get_holdings := fun account_id _ =>
      if account_id = "a1" then Except.ok [sample_holding]
      else Except.error { msg := "valuation failed" } }

/-- Fx provider fixture. -/
def fixture_fx : FxService :=
  { get_latest_exchange_rates := Except.ok [] }

/-- Market-data provider fixture. -/
def fixture_market_data : MarketDataService :=
  { search_symbol := fun _ => Except.ok [sample_summary],
    get_latest_quote_for_symbol := fun _ => Except.ok sample_quote,
    get_historical_quotes_for_symbol := fun _ => Except.ok [sample_quote] }

/-- Performance provider fixture: default-period single-subject metrics and
a batched result for the fixture accounts. -/
def fixture_performance : PerformanceService :=
  { calculate_performance_summary := fun _ _ start_date end_date =>
      match start_date, end_date with
      | none, none => Except.ok sample_metrics
      | _, _ => Except.error { msg := "explicit period requested" },
    calculate_accounts_simple_performance := fun _ =>
      Except.ok [sample_simple_metrics] }

/-- Performance provider whose batched call fails. -/
def failing_batch_performance : PerformanceService :=
  { calculate_performance_summary := fun _ _ _ _ => Except.ok sample_metrics,
    calculate_accounts_simple_performance := fun _ =>
      Except.error { msg := "performance engine down" } }

/-- Activity provider fixture. -/
def fixture_activities : ActivityService :=
  { get_activities_by_account_id := fun _ => Except.ok [],
    get_activities := Except.ok [] }

/-- The assembled fixture service. -/
def fixture_service : ExternalApiService :=
  { account_service := fixture_accounts,
    holdings_service := fixture_holdings,
    fx_service := fixture_fx,
    settings_service := fixture_settings,
    market_data_service := fixture_market_data,
    performance_service := fixture_performance,
    activity_service := fixture_activities }

/-- The fixture service with the base currency unset. -/
def unset_service : ExternalApiService :=
  { fixture_service with settings_service := unset_settings }

/-- The fixture service whose account listing fails. -/
def failing_accounts_service : ExternalApiService :=
  { fixture_service with account_service := failing_accounts }

/-- The fixture service whose batched performance call fails. -/
def failing_batch_service : ExternalApiService :=
  { fixture_service with performance_service := failing_batch_performance }

/-- Stated from the claim's words, for comparison with the projection
derived from the source: an optional monetary pair renders as the two-key
`{local, base}` object when the domain value is present and as JSON `null`
when it is absent. -/
def spec_monetary_pair (o : Option MonetaryValue) : Json :=
  match o with
  | some m => Json.obj [("local", Json.num m.«local»), ("base", Json.num m.base)]
  | none => Json.null

/-! Helper lemmas about the aggregation loop and the projections. -/

/-- The fold of the all-accounts loop, generalized over the accumulator:
it appends, in account order, exactly the successful fetches. -/
theorem collect_all_holdings_go (hs : HoldingsService) (base_currency : String) :
    ∀ (accounts : List Account) (init : List Holding),
      accounts.foldl
        (fun all_holdings account =>
          match hs.get_holdings account.id base_currency with
          | Except.ok holdings => all_holdings ++ holdings
          | Except.error _ => all_holdings)
        init
      = init ++ (accounts.filterMap fun a =>
          (hs.get_holdings a.id base_currency).toOption).flatten
  | [], init => by simp
  | account :: rest, init => by
    rcases hfetch : hs.get_holdings account.id base_currency with e | holdings
    · simp [List.foldl_cons, hfetch, collect_all_holdings_go hs base_currency rest init,
        List.filterMap_cons, Except.toOption]
    · simp [List.foldl_cons, hfetch,
        collect_all_holdings_go hs base_currency rest (init ++ holdings),
        List.filterMap_cons, Except.toOption, List.append_assoc]

/-- The all-accounts loop collects, in account-iteration order, the
concatenation of each account's successfully fetched holdings. -/
theorem collect_all_holdings_eq (hs : HoldingsService) (base_currency : String)
    (accounts : List Account) :
    collect_all_holdings hs accounts base_currency
      = (accounts.filterMap fun a =>
          (hs.get_holdings a.id base_currency).toOption).flatten := by
  simpa [collect_all_holdings] using
    collect_all_holdings_go hs base_currency accounts []

/-- Projection distributes over the per-account concatenation. -/
theorem holdings_to_json_join (hs : HoldingsService) (base_currency : String)
    (accounts : List Account) :
    holdings_to_json ((accounts.filterMap fun a =>
        (hs.get_holdings a.id base_currency).toOption).flatten)
      = (accounts.filterMap fun a =>
          ((hs.get_holdings a.id base_currency).toOption.map holdings_to_json)).flatten := by
  show (List.map holding_to_json _) = _
  simp only [List.map_flatten, List.map_filterMap]
  rfl

/-- `render_holdings_result` never produces a `Result`-level error. -/
theorem render_holdings_result_ne_error (base_currency : String)
    (holdings_result : Res (List Holding)) (e : Err) :
    render_holdings_result base_currency holdings_result ≠ Except.error e := by
  rcases holdings_result with err | holdings <;> simp [render_holdings_result]

/-- On the single-account path with the base currency resolved, the result
is exactly the rendering of that one provider fetch. -/
theorem get_holdings_some_eq (s : ExternalApiService) (aid c : String)
    (hbc : s.settings_service.get_base_currency = Except.ok (some c)) :
    s.get_holdings (some aid)
      = render_holdings_result c (s.holdings_service.get_holdings aid c) := by
  unfold ExternalApiService.get_holdings
  rw [hbc]

/-- Claim C1: with the base currency set and the account listing
succeeding, `get_holdings` with no account id returns `Ok` of an object
whose `holdings` array is the concatenation, in account-iteration order, of
the per-account holdings lists, omitting accounts whose fetch fails, with a
`baseCurrency` key and no `error` key; and each account whose individual
fetch succeeds would yield exactly its own slice via the per-account call. -/
theorem get_holdings_all_accounts_concat (s : ExternalApiService) (c : String)
    (accounts : List Account)
    (hbc : s.settings_service.get_base_currency = Except.ok (some c))
    (hacc : s.account_service.get_all_accounts = Except.ok accounts) :
    ∃ j, s.get_holdings none = Except.ok j
      ∧ j.lookup "holdings" = some (Json.arr ((accounts.filterMap fun a =>
          ((s.holdings_service.get_holdings a.id c).toOption.map holdings_to_json)).flatten))
      ∧ j.lookup "baseCurrency" = some (Json.str c)
      ∧ j.lookup "error" = none
      ∧ ∀ a ∈ accounts, ∀ hs, s.holdings_service.get_holdings a.id c = Except.ok hs →
          s.get_holdings (some a.id) = Except.ok (Json.obj [
            ("holdings", Json.arr (holdings_to_json hs)),
            ("baseCurrency", Json.str c)]) := by
  have hmain : s.get_holdings none = Except.ok (Json.obj [
      ("holdings", Json.arr ((accounts.filterMap fun a =>
        ((s.holdings_service.get_holdings a.id c).toOption.map holdings_to_json)).flatten)),
      ("baseCurrency", Json.str c)]) := by
    unfold ExternalApiService.get_holdings
    rw [hbc, hacc]
    simp only [render_holdings_result, collect_all_holdings_eq, holdings_to_json_join]
  refine ⟨_, hmain, rfl, rfl, rfl, ?_⟩
  intro a _ hs hfetch
  rw [get_holdings_some_eq s a.id c hbc, hfetch]
  rfl

/-- Claim C2: if the settings provider reports the base currency unset,
`get_holdings` (with or without an account id) returns exactly
`Ok {error: "Base currency not set"}`; the result is moreover unchanged
under any replacement of the holdings and accounts providers, so neither is
consulted. -/
theorem get_holdings_base_currency_unset (s : ExternalApiService)
    (account_id : Option String)
    (h : s.settings_service.get_base_currency = Except.ok none) :
    s.get_holdings account_id
      = Except.ok (Json.obj [("error", Json.str "Base currency not set")])
    ∧ ∀ (hp : HoldingsService) (ap : AccountService),
        ({ s with holdings_service := hp, account_service := ap } :
            ExternalApiService).get_holdings account_id
          = s.get_holdings account_id := by
  have h1 : s.get_holdings account_id
      = Except.ok (Json.obj [("error", Json.str "Base currency not set")]) := by
    unfold ExternalApiService.get_holdings
    rw [h]
  refine ⟨h1, fun hp ap => ?_⟩
  have h2 : ({ s with holdings_service := hp, account_service := ap } :
      ExternalApiService).settings_service.get_base_currency = Except.ok none := h
  have h3 : ({ s with holdings_service := hp, account_service := ap } :
      ExternalApiService).get_holdings account_id
      = Except.ok (Json.obj [("error", Json.str "Base currency not set")]) := by
    unfold ExternalApiService.get_holdings
    rw [h2]
  rw [h1, h3]

/-- Claim C5: with the base currency set and an account id given, a failing
single-account holdings fetch yields `Ok {error: <formatted failure>}` (not
a `Result`-level failure); the result depends only on the provider's value
at that account id and base currency, and not on the accounts provider. -/
theorem get_holdings_single_account_error (s : ExternalApiService)
    (aid c : String) (e : Err)
    (hbc : s.settings_service.get_base_currency = Except.ok (some c))
    (hfail : s.holdings_service.get_holdings aid c = Except.error e) :
    s.get_holdings (some aid) = Except.ok (Json.obj [("error", Json.str e.to_string)])
    ∧ (∀ hp : HoldingsService,
        hp.get_holdings aid c = s.holdings_service.get_holdings aid c →
        ({ s with holdings_service := hp } : ExternalApiService).get_holdings (some aid)
          = s.get_holdings (some aid))
    ∧ (∀ ap : AccountService,
        ({ s with account_service := ap } : ExternalApiService).get_holdings (some aid)
          = s.get_holdings (some aid)) := by
  refine ⟨?_, ?_, ?_⟩
  · rw [get_holdings_some_eq s aid c hbc, hfail]
    rfl
  · intro hp hp_eq
    have hbc2 : ({ s with holdings_service := hp } :
        ExternalApiService).settings_service.get_base_currency = Except.ok (some c) := hbc
    have hl : ({ s with holdings_service := hp } :
        ExternalApiService).holdings_service.get_holdings aid c
        = s.holdings_service.get_holdings aid c := hp_eq
    rw [get_holdings_some_eq _ aid c hbc2, get_holdings_some_eq s aid c hbc, hl]
  · intro ap
    have hbc2 : ({ s with account_service := ap } :
        ExternalApiService).settings_service.get_base_currency = Except.ok (some c) := hbc
    rw [get_holdings_some_eq _ aid c hbc2, get_holdings_some_eq s aid c hbc]

/-- Claim C9: `get_holdings` fails at the `Result` level exactly when the
settings read fails, or when no account id was given, the base currency is
set, and the account listing fails; every holdings-provider failure is
converted to an `Ok` payload. -/
theorem get_holdings_err_iff (s : ExternalApiService)
    (account_id : Option String) (e : Err) :
    s.get_holdings account_id = Except.error e ↔
      (s.settings_service.get_base_currency = Except.error e
        ∨ (account_id = none
           ∧ (∃ c, s.settings_service.get_base_currency = Except.ok (some c))
           ∧ s.account_service.get_all_accounts = Except.error e)) := by
  unfold ExternalApiService.get_holdings
  rcases hset : s.settings_service.get_base_currency with e0 | bc
  · simp [hset]
  · rcases bc with _ | c0
    · simp [hset]
    · rcases account_id with _ | aid
      · rcases hacc : s.account_service.get_all_accounts with ea | accounts
        · simp [hset, hacc]
        · simp [hset, hacc, render_holdings_result_ne_error]
      · simp [hset, render_holdings_result_ne_error]

/-- The source's rendering of an optional monetary pair
(`h.field.map(|m| json!({local, base}))` embedded in the outer `json!`)
coincides with the claim's when-present/when-absent description. -/
theorem ofOption_pair_eq_spec (o : Option MonetaryValue) :
    Json.ofOption (o.map fun m => Json.obj [
      ("local", Json.num m.«local»), ("base", Json.num m.base)])
      = spec_monetary_pair o := by
  rcases o with _ | m <;> rfl

/-- `spec_monetary_pair` is `null` or a full two-key pair object, never a
partially populated object. -/
theorem spec_monetary_pair_shape (o : Option MonetaryValue) :
    spec_monetary_pair o = Json.null
    ∨ ∃ l b, spec_monetary_pair o
        = Json.obj [("local", Json.num l), ("base", Json.num b)] := by
  rcases o with _ | m
  · exact Or.inl rfl
  · exact Or.inr ⟨m.«local», m.base, rfl⟩

/-- Claim C3: the holding at position `i` projects to an object whose
`marketValue` is always the two-key `{local, base}` object of the domain
market value, and whose optional monetary pair fields (`costBasis`,
`unrealizedGain`, `realizedGain`, `totalGain`, `dayChange`) each render
exactly as the domain field dictates: the two-key `{local, base}` object of
that field's value when it is present, JSON `null` (the key still present)
when it is absent; consequently every pair key holds `null` or a full
two-key object, never a partially populated one. -/
theorem holdings_to_json_monetary_pairs (holdings : List Holding)
    (i : Nat) (h : Holding) (hi : holdings[i]? = some h) :
    ∃ j, (holdings_to_json holdings)[i]? = some j
      ∧ j.lookup "marketValue" = some (Json.obj [
          ("local", Json.num h.market_value.«local»),
          ("base", Json.num h.market_value.base)])
      ∧ j.lookup "costBasis" = some (spec_monetary_pair h.cost_basis)
      ∧ j.lookup "unrealizedGain" = some (spec_monetary_pair h.unrealized_gain)
      ∧ j.lookup "realizedGain" = some (spec_monetary_pair h.realized_gain)
      ∧ j.lookup "totalGain" = some (spec_monetary_pair h.total_gain)
      ∧ j.lookup "dayChange" = some (spec_monetary_pair h.day_change)
      ∧ ∀ k ∈ (["costBasis", "unrealizedGain", "realizedGain", "totalGain",
          "dayChange"] : List String),
          ∃ v, j.lookup k = some v
            ∧ (v = Json.null
               ∨ ∃ l b, v = Json.obj [("local", Json.num l), ("base", Json.num b)]) := by
  refine ⟨holding_to_json h, ?_, rfl, ?_, ?_, ?_, ?_, ?_, ?_⟩
  · simp only [holdings_to_json, List.getElem?_map, hi, Option.map_some']
  · exact congrArg some (ofOption_pair_eq_spec h.cost_basis)
  · exact congrArg some (ofOption_pair_eq_spec h.unrealized_gain)
  · exact congrArg some (ofOption_pair_eq_spec h.realized_gain)
  · exact congrArg some (ofOption_pair_eq_spec h.total_gain)
  · exact congrArg some (ofOption_pair_eq_spec h.day_change)
  · intro k hk
    simp only [List.mem_cons, List.not_mem_nil, or_false] at hk
    rcases hk with rfl | rfl | rfl | rfl | rfl
    · exact ⟨_, congrArg some (ofOption_pair_eq_spec h.cost_basis),
        spec_monetary_pair_shape h.cost_basis⟩
    · exact ⟨_, congrArg some (ofOption_pair_eq_spec h.unrealized_gain),
        spec_monetary_pair_shape h.unrealized_gain⟩
    · exact ⟨_, congrArg some (ofOption_pair_eq_spec h.realized_gain),
        spec_monetary_pair_shape h.realized_gain⟩
    · exact ⟨_, congrArg some (ofOption_pair_eq_spec h.total_gain),
        spec_monetary_pair_shape h.total_gain⟩
    · exact ⟨_, congrArg some (ofOption_pair_eq_spec h.day_change),
        spec_monetary_pair_shape h.day_change⟩

/-- Claim C4: the portfolio performance summary fetches all accounts and
then makes one batched simple-performance call over all account ids; a
failing account fetch or a failing batched call fails the whole operation
with a single error (the handler body is exactly `{error: <message>}`, with
no `performances` key), while a successful batch yields `Ok` of
`{performances: [...]}` projecting every returned metric. -/
theorem get_portfolio_performance_summary_batched
    (s t : ExternalApiService) (accounts : List Account) (et : Err)
    (hacc : s.account_service.get_all_accounts = Except.ok accounts)
    (ht : t.account_service.get_all_accounts = Except.error et) :
    t.get_portfolio_performance_summary = Except.error et
    ∧ portfolio_performance_summary_handler t = Json.obj [("error",
        Json.str ("Failed to get portfolio performance summary: " ++ et.to_string))]
    ∧ (∀ e, s.performance_service.calculate_accounts_simple_performance
          (accounts.map fun a => a.id) = Except.error e →
        s.get_portfolio_performance_summary = Except.error e
        ∧ portfolio_performance_summary_handler s = Json.obj [("error",
            Json.str ("Failed to get portfolio performance summary: " ++ e.to_string))]
        ∧ (portfolio_performance_summary_handler s).lookup "performances" = none)
    ∧ (∀ ps, s.performance_service.calculate_accounts_simple_performance
          (accounts.map fun a => a.id) = Except.ok ps →
        s.get_portfolio_performance_summary
          = Except.ok (Json.obj [("performances",
              Json.arr (simple_performances_to_json ps))])
        ∧ (simple_performances_to_json ps).length = ps.length) := by
  have ht1 : t.get_portfolio_performance_summary = Except.error et := by
    unfold ExternalApiService.get_portfolio_performance_summary
    rw [ht]
  refine ⟨ht1, ?_, ?_, ?_⟩
  · unfold portfolio_performance_summary_handler
    rw [ht1]
  · intro e he
    have h1 : s.get_portfolio_performance_summary = Except.error e := by
      unfold ExternalApiService.get_portfolio_performance_summary
      simp only [hacc, he]
    have h2 : portfolio_performance_summary_handler s = Json.obj [("error",
        Json.str ("Failed to get portfolio performance summary: " ++ e.to_string))] := by
      unfold portfolio_performance_summary_handler
      rw [h1]
    exact ⟨h1, h2, by rw [h2]; rfl⟩
  · intro ps hps
    refine ⟨?_, by simp [simple_performances_to_json]⟩
    unfold ExternalApiService.get_portfolio_performance_summary
    simp only [hacc, hps]

/-- Claim C6: for a provider list of quotes, `get_historical_quotes`
returns `{symbol, quotes}` where the quotes array projects the provider's
list elementwise in the same order and with the same length; no re-sorting
happens in this layer. -/
theorem get_historical_quotes_shape (s : ExternalApiService)
    (symbol : String) (qs : List Quote)
    (h : s.market_data_service.get_historical_quotes_for_symbol symbol = Except.ok qs) :
    s.get_historical_quotes symbol = Except.ok (Json.obj [
      ("symbol", Json.str symbol),
      ("quotes", Json.arr (qs.map quote_to_json))])
    ∧ (quotes_to_json qs).length = qs.length
    ∧ ∀ i : Nat, (quotes_to_json qs)[i]? = (qs[i]?).map quote_to_json := by
  refine ⟨?_, by simp [quotes_to_json],
    fun i => by simp [quotes_to_json, List.getElem?_map]⟩
  unfold ExternalApiService.get_historical_quotes
  simp only [h]
  rfl

/-- Claim C7: `get_account_performance` queries the performance provider
for the single subject `("account", account_id)` with both the start and
the end date absent, and returns `{accountId, performance}` on success; the
result depends only on the provider's value at that default-period query. -/
theorem get_account_performance_default_period (s : ExternalApiService)
    (account_id : String) (p : PerformanceMetrics)
    (h : s.performance_service.calculate_performance_summary
        "account" account_id none none = Except.ok p) :
    s.get_account_performance account_id = Except.ok (Json.obj [
      ("accountId", Json.str account_id),
      ("performance", performance_to_json p)])
    ∧ ∀ ps : PerformanceService,
        ps.calculate_performance_summary "account" account_id none none
          = s.performance_service.calculate_performance_summary
              "account" account_id none none →
        ({ s with performance_service := ps } :
            ExternalApiService).get_account_performance account_id
          = s.get_account_performance account_id := by
  have h1 : s.get_account_performance account_id = Except.ok (Json.obj [
      ("accountId", Json.str account_id),
      ("performance", performance_to_json p)]) := by
    unfold ExternalApiService.get_account_performance
    rw [h]
  refine ⟨h1, fun ps hps => ?_⟩
  have hl : ({ s with performance_service := ps } :
      ExternalApiService).performance_service.calculate_performance_summary
        "account" account_id none none
      = s.performance_service.calculate_performance_summary
          "account" account_id none none := hps
  unfold ExternalApiService.get_account_performance
  rw [hl]

/-- Claim C8: the JSON projection functions are deterministic functions of
their arguments alone: applied to equal domain objects they produce equal
JSON values, and hence byte-identical serializations under `Json.render`.
(The embedding of each projection is a pure function of its argument,
mirroring the source closures, which read no ambient state.) -/
theorem json_projection_deterministic :
    (∀ h1 h2 : List Holding, h1 = h2 →
      holdings_to_json h1 = holdings_to_json h2
      ∧ (Json.arr (holdings_to_json h1)).render = (Json.arr (holdings_to_json h2)).render)
    ∧ (∀ a1 a2 : List Account, a1 = a2 →
      accounts_to_json a1 = accounts_to_json a2
      ∧ (Json.arr (accounts_to_json a1)).render = (Json.arr (accounts_to_json a2)).render)
    ∧ (∀ r1 r2 : List ExchangeRate, r1 = r2 →
      exchange_rates_to_json r1 = exchange_rates_to_json r2
      ∧ (Json.arr (exchange_rates_to_json r1)).render
          = (Json.arr (exchange_rates_to_json r2)).render)
    ∧ (∀ q1 q2 : Quote, q1 = q2 →
      quote_to_json q1 = quote_to_json q2
      ∧ (quote_to_json q1).render = (quote_to_json q2).render)
    ∧ (∀ p1 p2 : PerformanceMetrics, p1 = p2 →
      performance_to_json p1 = performance_to_json p2
      ∧ (performance_to_json p1).render = (performance_to_json p2).render)
    ∧ (∀ l1 l2 : List Activity, l1 = l2 →
      activities_to_json l1 = activities_to_json l2
      ∧ (Json.arr (activities_to_json l1)).render
          = (Json.arr (activities_to_json l2)).render) := by
  refine ⟨fun x y h => ?_, fun x y h => ?_, fun x y h => ?_, fun x y h => ?_,
    fun x y h => ?_, fun x y h => ?_⟩ <;> subst h <;> exact ⟨rfl, rfl⟩

/-- Claim C10: `quote_summaries_to_json` preserves the input list's length
and order and renders each summary as an object with exactly the keys
`symbol`, `exchange`, `name`, `type`, emitting `short_name` under `name`
and `quote_type` under `type`. -/
theorem quote_summaries_to_json_shape (summaries : List QuoteSummary) :
    (quote_summaries_to_json summaries).length = summaries.length
    ∧ (∀ j ∈ quote_summaries_to_json summaries,
        j.keys = ["symbol", "exchange", "name", "type"])
    ∧ (∀ (i : Nat) (q : QuoteSummary) (j : Json),
        summaries[i]? = some q → (quote_summaries_to_json summaries)[i]? = some j →
        j.lookup "symbol" = some (Json.str q.symbol)
        ∧ j.lookup "exchange" = some (Json.str q.exchange)
        ∧ j.lookup "name" = some (Json.str q.short_name)
        ∧ j.lookup "type" = some (Json.str q.quote_type)) := by
  refine ⟨by simp [quote_summaries_to_json], ?_, ?_⟩
  · intro j hj
    simp only [quote_summaries_to_json] at hj
    obtain ⟨q, _, rfl⟩ := List.mem_map.mp hj
    rfl
  · intro i q j hq hj
    simp only [quote_summaries_to_json, List.getElem?_map, hq, Option.map_some',
      Option.some.injEq] at hj
    subst hj
    exact ⟨rfl, rfl, rfl, rfl⟩

/-- Witness for C1 on the fixture: two accounts, the second failing. -/
theorem get_holdings_all_accounts_concat_witness :
    ∃ j, fixture_service.get_holdings none = Except.ok j
      ∧ j.lookup "holdings" = some (Json.arr ((([acct1, acct2]).filterMap fun a =>
          ((fixture_service.holdings_service.get_holdings a.id "USD").toOption.map
            holdings_to_json)).flatten))
      ∧ j.lookup "baseCurrency" = some (Json.str "USD")
      ∧ j.lookup "error" = none
      ∧ ∀ a ∈ [acct1, acct2], ∀ hs,
          fixture_service.holdings_service.get_holdings a.id "USD" = Except.ok hs →
          fixture_service.get_holdings (some a.id) = Except.ok (Json.obj [
            ("holdings", Json.arr (holdings_to_json hs)),
            ("baseCurrency", Json.str "USD")]) :=
  get_holdings_all_accounts_concat fixture_service "USD" [acct1, acct2] rfl rfl

/-- Witness for C2 on the fixture with the base currency unset. -/
theorem get_holdings_base_currency_unset_witness :
    unset_service.get_holdings none
      = Except.ok (Json.obj [("error", Json.str "Base currency not set")])
    ∧ ∀ (hp : HoldingsService) (ap : AccountService),
        ({ unset_service with holdings_service := hp, account_service := ap } :
            ExternalApiService).get_holdings none
          = unset_service.get_holdings none :=
  get_holdings_base_currency_unset unset_service none rfl

/-- Witness for C3 on the sample holding, whose cost basis is present and
whose day change is absent. -/
theorem holdings_to_json_monetary_pairs_witness :
    ∃ j, (holdings_to_json [sample_holding])[0]? = some j
      ∧ j.lookup "marketValue" = some (Json.obj [
          ("local", Json.num 1500), ("base", Json.num 1500)])
      ∧ j.lookup "costBasis" = some (Json.obj [
          ("local", Json.num 1000), ("base", Json.num 1000)])
      ∧ j.lookup "unrealizedGain" = some (Json.obj [
          ("local", Json.num 500), ("base", Json.num 500)])
      ∧ j.lookup "realizedGain" = some Json.null
      ∧ j.lookup "totalGain" = some (Json.obj [
          ("local", Json.num 500), ("base", Json.num 500)])
      ∧ j.lookup "dayChange" = some Json.null
      ∧ ∀ k ∈ (["costBasis", "unrealizedGain", "realizedGain", "totalGain",
          "dayChange"] : List String),
          ∃ v, j.lookup k = some v
            ∧ (v = Json.null
               ∨ ∃ l b, v = Json.obj [("local", Json.num l), ("base", Json.num b)]) :=
  holdings_to_json_monetary_pairs [sample_holding] 0 sample_holding rfl

/-- Witness for C4 on the fixtures: one service with a healthy account
listing, one whose account listing fails. -/
theorem get_portfolio_performance_summary_batched_witness :
    failing_accounts_service.get_portfolio_performance_summary
      = Except.error { msg := "db down" }
    ∧ portfolio_performance_summary_handler failing_accounts_service
      = Json.obj [("error", Json.str
          ("Failed to get portfolio performance summary: "
            ++ Err.to_string { msg := "db down" }))]
    ∧ (∀ e, fixture_service.performance_service.calculate_accounts_simple_performance
          (([acct1, acct2]).map fun a => a.id) = Except.error e →
        fixture_service.get_portfolio_performance_summary = Except.error e
        ∧ portfolio_performance_summary_handler fixture_service = Json.obj [("error",
            Json.str ("Failed to get portfolio performance summary: " ++ e.to_string))]
        ∧ (portfolio_performance_summary_handler fixture_service).lookup "performances"
            = none)
    ∧ (∀ ps, fixture_service.performance_service.calculate_accounts_simple_performance
          (([acct1, acct2]).map fun a => a.id) = Except.ok ps →
        fixture_service.get_portfolio_performance_summary
          = Except.ok (Json.obj [("performances",
              Json.arr (simple_performances_to_json ps))])
        ∧ (simple_performances_to_json ps).length = ps.length) :=
  get_portfolio_performance_summary_batched fixture_service failing_accounts_service
    [acct1, acct2] { msg := "db down" } rfl rfl

/-- Witness for C5 on the fixture account whose fetch fails. -/
theorem get_holdings_single_account_error_witness :
    fixture_service.get_holdings (some "a2")
      = Except.ok (Json.obj [("error", Json.str (Err.to_string { msg := "valuation failed" }))])
    ∧ (∀ hp : HoldingsService,
        hp.get_holdings "a2" "USD"
          = fixture_service.holdings_service.get_holdings "a2" "USD" →
        ({ fixture_service with holdings_service := hp } :
            ExternalApiService).get_holdings (some "a2")
          = fixture_service.get_holdings (some "a2"))
    ∧ (∀ ap : AccountService,
        ({ fixture_service with account_service := ap } :
            ExternalApiService).get_holdings (some "a2")
          = fixture_service.get_holdings (some "a2")) :=
  get_holdings_single_account_error fixture_service "a2" "USD"
    { msg := "valuation failed" } rfl rfl

/-- Witness for C6 on the fixture market-data provider. -/
theorem get_historical_quotes_shape_witness :
    fixture_service.get_historical_quotes "AAPL" = Except.ok (Json.obj [
      ("symbol", Json.str "AAPL"),
      ("quotes", Json.arr ([sample_quote].map quote_to_json))])
    ∧ (quotes_to_json [sample_quote]).length = [sample_quote].length
    ∧ ∀ i : Nat, (quotes_to_json [sample_quote])[i]?
        = ([sample_quote][i]?).map quote_to_json :=
  get_historical_quotes_shape fixture_service "AAPL" [sample_quote] rfl

/-- Witness for C7 on the fixture performance provider. -/
theorem get_account_performance_default_period_witness :
    fixture_service.get_account_performance "a1" = Except.ok (Json.obj [
      ("accountId", Json.str "a1"),
      ("performance", performance_to_json sample_metrics)])
    ∧ ∀ ps : PerformanceService,
        ps.calculate_performance_summary "account" "a1" none none
          = fixture_service.performance_service.calculate_performance_summary
              "account" "a1" none none →
        ({ fixture_service with performance_service := ps } :
            ExternalApiService).get_account_performance "a1"
          = fixture_service.get_account_performance "a1" :=
  get_account_performance_default_period fixture_service "a1" sample_metrics rfl

/-- Witness for C8: re-projection of concrete domain objects. -/
theorem json_projection_deterministic_witness :
    holdings_to_json [sample_holding] = holdings_to_json [sample_holding]
    ∧ (quote_to_json sample_quote).render = (quote_to_json sample_quote).render :=
  ⟨(json_projection_deterministic.1 [sample_holding] [sample_holding] rfl).1,
   (json_projection_deterministic.2.2.2.1 sample_quote sample_quote rfl).2⟩

/-- Witness for C9: a failing account listing surfaces as a `Result`-level
error of the all-accounts call. -/
theorem get_holdings_err_iff_witness :
    failing_accounts_service.get_holdings none = Except.error { msg := "db down" } :=
  (get_holdings_err_iff failing_accounts_service none { msg := "db down" }).mpr
    (Or.inr ⟨rfl, ⟨"USD", rfl⟩, rfl⟩)

/-- Witness for C10 on the sample summary. -/
theorem quote_summaries_to_json_shape_witness :
    (quote_summaries_to_json [sample_summary]).length = 1
    ∧ (Json.obj [("symbol", Json.str "AAPL"), ("exchange", Json.str "NASDAQ"),
        ("name", Json.str "Apple Inc."), ("type", Json.str "EQUITY")]).lookup "name"
      = some (Json.str "Apple Inc.") :=
  ⟨(quote_summaries_to_json_shape [sample_summary]).1,
   ((quote_summaries_to_json_shape [sample_summary]).2.2 0 sample_summary
      (Json.obj [("symbol", Json.str "AAPL"), ("exchange", Json.str "NASDAQ"),
        ("name", Json.str "Apple Inc."), ("type", Json.str "EQUITY")])
      rfl rfl).2.2.1⟩
